import Mathlib

/-!
Verification of the sportsbook prediction-market core: the bet rule engine
(`lib/validation/bet-rules.ts`), configuration constants
(`lib/config/constants.ts`), the transaction decoder and claim checker
(`lib/blockchain/tx-validator.ts`), the bet-confirmation endpoint
(`app/api/bets/confirm/route.ts`) and the live-stats SSE endpoint
(`app/api/markets/live-stats/route.ts`), shallowly embedded in Lean.

Conventions of the embedding:
* JavaScript numbers that hold money or time are modelled as `ℚ` / `ℤ`
  (exact); where the code genuinely hinges on IEEE-754 binary64 rounding
  (the USDT wei round-trip and the `BigInt` conversion of the scaled
  claimed amount) the doubles are modelled exactly as rationals rounded
  to 53 bits, round-to-nearest ties-to-even.
* BigInt values are `ℤ` (or `ℕ` where the source guarantees nonnegative).
* Strings (wallet addresses, hex payloads, status values, error codes)
  are `String` / `List Char`.
* The `warnings` arrays of the validators are advisory only (they never
  affect `isValid` or `errors`) and are not modelled.
-/

-- ============================================================================
-- Basic types (lib/types/prediction-market.ts)
-- ============================================================================

inductive BetChoice where
  | YES
  | NO
deriving DecidableEq, Repr

/-- Mirror of `BetValidationError` (field and machine-readable code; the
human-readable message is not modelled). -/
structure BetValidationError where
  field : String
  code : String
deriving DecidableEq, Repr

/-- Mirror of `ValidationResult` (without the advisory `warnings`). -/
structure ValidationResult where
  isValid : Bool
  errors : List BetValidationError
deriving DecidableEq, Repr

-- ============================================================================
-- Configuration constants (lib/config/constants.ts)
-- ============================================================================

namespace BET_LIMITS

def MIN_BET : ℚ := 5

def MAX_BET : ℚ := 5000

def USDT_DECIMALS : ℕ := 6

def MIN_BET_WEI : ℤ := 5000000

def MAX_BET_WEI : ℤ := 5000000000

end BET_LIMITS

namespace ANTI_MANIPULATION

def COOLDOWN_SECONDS : ℤ := 300

def MAX_BETS_PER_WALLET : ℕ := 10

def POOL_CAP_PERCENT : ℚ := 10

def MAX_BETS_IN_1_HOUR : ℕ := 3

end ANTI_MANIPULATION

/-- Mirror of `isValidAddress` in constants.ts: the regex
`^0x[a-fA-F0-9]{40}$`. -/
def isHexChar (c : Char) : Bool :=
  (('0' ≤ c ∧ c ≤ '9') ∨ ('a' ≤ c ∧ c ≤ 'f') ∨ ('A' ≤ c ∧ c ≤ 'F') : Bool)

def isValidAddress (address : String) : Bool :=
  match address.data with
  | '0' :: 'x' :: rest => rest.length == 40 && rest.all isHexChar
  | _ => false

-- ============================================================================
-- Individual validators (lib/validation/bet-rules.ts)
-- ============================================================================

/-- Mirror of `validateBetAmount`.  The JS `typeof`/`isFinite` guard cannot
fail on `ℚ`; the remaining branches are translated verbatim.  The early
returns of the source are the nested `if`s here. -/
def validateBetAmount (amount : ℚ) : List BetValidationError :=
  if amount ≤ 0 then
    [{ field := "amount", code := "INVALID_AMOUNT" }]
  else if amount.den ≠ 1 then
    [{ field := "amount", code := "INVALID_AMOUNT" }]
  else
    (if amount < BET_LIMITS.MIN_BET then
      [{ field := "amount", code := "BET_MIN_EXCEEDED" }]
     else []) ++
    (if amount > BET_LIMITS.MAX_BET then
      [{ field := "amount", code := "BET_MAX_EXCEEDED" }]
     else [])

/-- Mirror of `validateBetChoice`; `none` models a value that is neither
`BetChoice.YES` nor `BetChoice.NO`. -/
def validateBetChoice (choice : Option BetChoice) : List BetValidationError :=
  if choice = some BetChoice.YES ∨ choice = some BetChoice.NO then []
  else [{ field := "choice", code := "INVALID_CHOICE" }]

/-- Mirror of `validateCooldown`.  `lastBetTimestamp` is in ms;
`!lastBetTimestamp` is JS-falsy for both `null` and `0`, hence the
explicit `t = 0` branch. -/
def validateCooldown (lastBetTimestamp : Option ℤ) (currentTime : ℤ) :
    List BetValidationError :=
  match lastBetTimestamp with
  | none => []
  | some t =>
    if t = 0 then []
    else if currentTime - t < ANTI_MANIPULATION.COOLDOWN_SECONDS * 1000 then
      [{ field := "cooldown", code := "COOLDOWN_NOT_MET" }]
    else []

/-- Mirror of `validateBetCount`. -/
def validateBetCount (currentBetCount : ℕ) : List BetValidationError :=
  if currentBetCount ≥ ANTI_MANIPULATION.MAX_BETS_PER_WALLET then
    [{ field := "betCount", code := "BET_COUNT_EXCEEDED" }]
  else []

/-- Mirror of `validatePoolCap`.  Note that `totalPool` is the PRE-bet pool
`totalYesPool + totalNoPool`; the new bet amount is not part of the
denominator. -/
def validatePoolCap (walletTotalBets newBetAmount totalYesPool totalNoPool : ℚ) :
    List BetValidationError :=
  let totalPool := totalYesPool + totalNoPool
  let maxWalletExposure :=
    if totalPool > 0 then totalPool * ANTI_MANIPULATION.POOL_CAP_PERCENT / 100
    else BET_LIMITS.MAX_BET * 10
  if walletTotalBets + newBetAmount > maxWalletExposure then
    [{ field := "poolCap", code := "POOL_CAP_EXCEEDED" }]
  else []

/-- Mirror of `validateBetVelocity` (timestamps in ms). -/
def validateBetVelocity (recentBetTimestamps : List ℤ) (currentTime : ℤ) :
    List BetValidationError :=
  let oneHourAgo := currentTime - 3600 * 1000
  let betsInLastHour := (recentBetTimestamps.filter (fun t => t ≥ oneHourAgo)).length
  if betsInLastHour ≥ ANTI_MANIPULATION.MAX_BETS_IN_1_HOUR then
    [{ field := "velocity", code := "VELOCITY_EXCEEDED" }]
  else []

/-- Mirror of `validateWalletNotFlagged`. -/
def validateWalletNotFlagged (isFlagged : Bool) : List BetValidationError :=
  if isFlagged then [{ field := "wallet", code := "WALLET_FLAGGED" }]
  else []

/-- Mirror of `validateWalletAddress`; the empty string models the JS-falsy
early return, the second branch the regex check. -/
def validateWalletAddress (address : String) : List BetValidationError :=
  if address = "" then [{ field := "wallet", code := "INVALID_WALLET" }]
  else if ¬ isValidAddress address then
    [{ field := "wallet", code := "INVALID_WALLET" }]
  else []

/-- Mirror of `validateMarketActive` (`endTime` in seconds — rational,
since the confirm route passes `marketEndMs / 1000` — and `currentTime`
in ms; both checks can fire, each contributing `MARKET_NOT_ACTIVE`). -/
def validateMarketActive (marketStatus : String) (endTime : ℚ) (currentTime : ℤ) :
    List BetValidationError :=
  (if marketStatus ≠ "ACTIVE" then
    [{ field := "market", code := "MARKET_NOT_ACTIVE" }]
   else []) ++
  (if (currentTime : ℚ) > endTime * 1000 then
    [{ field := "market", code := "MARKET_NOT_ACTIVE" }]
   else [])

-- ============================================================================
-- Comprehensive validators (lib/validation/bet-rules.ts)
-- ============================================================================

/-- Input record of `validateBetComprehensive` (and, minus the market and
address fields, of `validateBetForContract`). -/
structure BetComprehensiveInput where
  walletAddress : String
  choice : Option BetChoice
  amount : ℚ
  lastBetTimestamp : Option ℤ
  currentBetCount : ℕ
  walletTotalBets : ℚ
  recentBetTimestamps : List ℤ
  totalYesPool : ℚ
  totalNoPool : ℚ
  marketStatus : String
  marketEndTime : ℚ
  isFlagged : Bool
deriving Repr

/-- Stage-one error list of `validateBetComprehensive`: wallet address,
choice, amount, market liveness and wallet flag, in source order. -/
def comprehensiveStageOne (i : BetComprehensiveInput) (currentTime : ℤ) :
    List BetValidationError :=
  validateWalletAddress i.walletAddress ++
  validateBetChoice i.choice ++
  validateBetAmount i.amount ++
  validateMarketActive i.marketStatus i.marketEndTime currentTime ++
  validateWalletNotFlagged i.isFlagged

/-- Mirror of `validateBetComprehensive`.  The source only runs the
"timing-based" validators (cooldown, bet count, pool cap, velocity) when
all earlier validators produced no error (`if (errors.length === 0)`).
`currentTime` models the single `Date.now()` taken at entry. -/
def validateBetComprehensive (i : BetComprehensiveInput) (currentTime : ℤ) :
    ValidationResult :=
  let errors := comprehensiveStageOne i currentTime
  let errors :=
    if errors = [] then
      errors ++
      validateCooldown i.lastBetTimestamp currentTime ++
      validateBetCount i.currentBetCount ++
      validatePoolCap i.walletTotalBets i.amount i.totalYesPool i.totalNoPool ++
      validateBetVelocity i.recentBetTimestamps currentTime
    else errors
  { isValid := errors = [], errors := errors }

/-- Mirror of `validateBetForContract`: all seven contract-level checks,
flat, in source order, with no staging. -/
def validateBetForContract (i : BetComprehensiveInput) (currentTime : ℤ) :
    ValidationResult :=
  let errors :=
    validateBetAmount i.amount ++
    validateBetChoice i.choice ++
    validateCooldown i.lastBetTimestamp currentTime ++
    validateBetCount i.currentBetCount ++
    validatePoolCap i.walletTotalBets i.amount i.totalYesPool i.totalNoPool ++
    validateBetVelocity i.recentBetTimestamps currentTime ++
    validateWalletNotFlagged i.isFlagged
  { isValid := errors = [], errors := errors }

-- ============================================================================
-- IEEE-754 binary64 semantics (for the USDT conversion helpers)
-- ============================================================================

/-- Scale of the unit in the last place of a positive rational `q` rounded
to a binary64 significand of 53 bits: `2 ^ (⌊log₂ q⌋ - 52)`. -/
def mantissaScale (q : ℚ) : ℚ := 2 ^ (Int.log 2 q - 52)

/-- Integral significand of `q` truncated to 53 bits. -/
def mantissaFloor (q : ℚ) : ℤ := ⌊q / mantissaScale q⌋

/-- Fractional part of the significand discarded by truncation. -/
def mantissaRem (q : ℚ) : ℚ := q / mantissaScale q - mantissaFloor q

/-- Round a positive rational to 53 significant bits, round-to-nearest with
ties to even — the IEEE-754 binary64 rounding of every normal, non-overflowing
value, which covers every quantity the USDT helpers can produce. -/
def roundMantissa (q : ℚ) : ℚ :=
  (mantissaFloor q +
    if mantissaRem q > 1 / 2 ∨ (mantissaRem q = 1 / 2 ∧ mantissaFloor q % 2 ≠ 0)
    then 1 else 0 : ℤ) * mantissaScale q

/-- Exact value of the binary64 double nearest to the rational `q`
(subnormals and overflow ignored: the USDT helpers only meet magnitudes
between 2⁻²² and 2³³). -/
def roundDouble (q : ℚ) : ℚ :=
  if q = 0 then 0
  else if q < 0 then -roundMantissa (-q)
  else roundMantissa q

/-- Mirror of `formatUSDT` in constants.ts:
`Number(amount) / Math.pow(10, USDT_DECIMALS)` — the BigInt→Number
conversion rounds once, the float division rounds again. -/
def formatUSDT (weiAmount : ℤ) : ℚ :=
  roundDouble (roundDouble (weiAmount : ℚ) / 10 ^ BET_LIMITS.USDT_DECIMALS)

/-- Mirror of `toUSDTWei` in constants.ts:
`BigInt(Math.floor(amount * Math.pow(10, USDT_DECIMALS)))` — one float
multiplication (rounded) followed by an exact floor. -/
def toUSDTWei (amount : ℚ) : ℤ :=
  ⌊roundDouble (amount * 10 ^ BET_LIMITS.USDT_DECIMALS)⌋

theorem intLog2_eq {q : ℚ} {e : ℤ} (hq : 0 < q)
    (h1 : (2 : ℚ) ^ e ≤ q) (h2 : q < (2 : ℚ) ^ (e + 1)) :
    Int.log 2 q = e := by
  refine le_antisymm ?_ ((Int.zpow_le_iff_le_log (by norm_num) hq).1 ?_)
  · have hlt : Int.log 2 q < e + 1 :=
      (Int.lt_zpow_iff_log_lt (b := 2) (x := e + 1) (by norm_num) hq).1
        (by exact_mod_cast h2)
    omega
  · exact_mod_cast h1

/-- Evaluation helper for `roundMantissa` in the round-down case. -/
theorem roundMantissa_eval_down (q : ℚ) (e fl : ℤ)
    (hlog : Int.log 2 q = e)
    (hfl : ⌊q / (2 : ℚ) ^ (e - 52)⌋ = fl)
    (hrem : q / (2 : ℚ) ^ (e - 52) - (fl : ℚ) < 1 / 2) :
    roundMantissa q = (fl : ℚ) * (2 : ℚ) ^ (e - 52) := by
  have hscale : mantissaScale q = (2 : ℚ) ^ (e - 52) := by
    rw [mantissaScale, hlog]
  have hfl' : mantissaFloor q = fl := by
    rw [mantissaFloor, hscale, hfl]
  have hrem' : mantissaRem q < 1 / 2 := by
    rw [mantissaRem, hscale, hfl']
    exact hrem
  rw [roundMantissa, hscale, hfl']
  rw [if_neg]
  · norm_num
  · rintro (h | ⟨h, -⟩)
    · exact absurd hrem' (not_lt.2 (le_of_lt h))
    · rw [h] at hrem'
      exact lt_irrefl _ hrem'

/-- The wei value 8000001 (8.000001 USDT) converts to the double nearest to
8.000001, which is 4503600190320449 × 2⁻⁴⁹, strictly below the exact value. -/
theorem roundDouble_8000001 : roundDouble (8000001 : ℚ) = 8000001 := by
  rw [roundDouble, if_neg (by norm_num), if_neg (by norm_num)]
  have h := roundMantissa_eval_down (8000001 : ℚ) 22 8589935665741824 ?_ ?_ ?_
  · rw [h]; norm_num
  · exact intLog2_eq (by norm_num) (by norm_num) (by norm_num)
  · rw [Int.floor_eq_iff] <;> norm_num
  · norm_num

theorem formatUSDT_8000001 :
    formatUSDT 8000001 = 4503600190320449 / 562949953421312 := by
  rw [formatUSDT, show ((8000001 : ℤ) : ℚ) = 8000001 from by norm_num,
      roundDouble_8000001]
  rw [roundDouble, if_neg (by norm_num [BET_LIMITS.USDT_DECIMALS]),
      if_neg (by norm_num [BET_LIMITS.USDT_DECIMALS])]
  have h := roundMantissa_eval_down
    ((8000001 : ℚ) / 10 ^ BET_LIMITS.USDT_DECIMALS) 3 4503600190320449 ?_ ?_ ?_
  · rw [h]; norm_num [BET_LIMITS.USDT_DECIMALS]
  · exact intLog2_eq (by norm_num [BET_LIMITS.USDT_DECIMALS])
      (by norm_num [BET_LIMITS.USDT_DECIMALS]) (by norm_num [BET_LIMITS.USDT_DECIMALS])
  · rw [Int.floor_eq_iff] <;> norm_num [BET_LIMITS.USDT_DECIMALS]
  · norm_num [BET_LIMITS.USDT_DECIMALS]

theorem toUSDTWei_of_formatUSDT_8000001 :
    toUSDTWei (4503600190320449 / 562949953421312 : ℚ) = 8000000 := by
  rw [toUSDTWei]
  rw [roundDouble, if_neg (by norm_num [BET_LIMITS.USDT_DECIMALS]),
      if_neg (by norm_num [BET_LIMITS.USDT_DECIMALS])]
  have h := roundMantissa_eval_down
    ((4503600190320449 / 562949953421312 : ℚ) * 10 ^ BET_LIMITS.USDT_DECIMALS)
    22 8589935665741823 ?_ ?_ ?_
  · rw [h]
    rw [Int.floor_eq_iff] <;> norm_num
  · exact intLog2_eq (by norm_num [BET_LIMITS.USDT_DECIMALS])
      (by norm_num [BET_LIMITS.USDT_DECIMALS]) (by norm_num [BET_LIMITS.USDT_DECIMALS])
  · rw [Int.floor_eq_iff] <;> norm_num [BET_LIMITS.USDT_DECIMALS]
  · norm_num [BET_LIMITS.USDT_DECIMALS]

/-- C6: the claim asserts `toUSDTWei (formatUSDT w) = w` for every wei
value `w` in `[MIN_BET_WEI, MAX_BET_WEI]` with no floating-point loss.
Evaluating the code's float pipeline exactly at `w = 8000001` (which lies
inside the claimed range) yields 8000000: the double nearest to
8.000001 is a hair below the exact value, and `toUSDTWei`'s `Math.floor`
then drops one whole smallest unit, so the round-trip is not the
identity on the claimed range. -/
theorem toUSDTWei_formatUSDT_loses_one_wei :
    BET_LIMITS.MIN_BET_WEI ≤ 8000001 ∧ (8000001 : ℤ) ≤ BET_LIMITS.MAX_BET_WEI ∧
    toUSDTWei (formatUSDT 8000001) = 8000000 ∧
    toUSDTWei (formatUSDT 8000001) ≠ 8000001 := by
  refine ⟨by norm_num [BET_LIMITS.MIN_BET_WEI], by norm_num [BET_LIMITS.MAX_BET_WEI], ?_, ?_⟩
  · rw [formatUSDT_8000001, toUSDTWei_of_formatUSDT_8000001]
  · rw [formatUSDT_8000001, toUSDTWei_of_formatUSDT_8000001]
    norm_num

-- ============================================================================

/-- Evaluation helper for `roundMantissa` in the round-up case. -/
theorem roundMantissa_eval_up (q : ℚ) (e fl : ℤ)
    (hlog : Int.log 2 q = e)
    (hfl : ⌊q / (2 : ℚ) ^ (e - 52)⌋ = fl)
    (hrem : 1 / 2 < q / (2 : ℚ) ^ (e - 52) - (fl : ℚ)) :
    roundMantissa q = ((fl + 1 : ℤ) : ℚ) * (2 : ℚ) ^ (e - 52) := by
  have hscale : mantissaScale q = (2 : ℚ) ^ (e - 52) := by
    rw [mantissaScale, hlog]
  have hfl' : mantissaFloor q = fl := by
    rw [mantissaFloor, hscale, hfl]
  have hrem' : 1 / 2 < mantissaRem q := by
    rw [mantissaRem, hscale, hfl']
    exact hrem
  rw [roundMantissa, hscale, hfl']
  rw [if_pos (Or.inl hrem')]

/-- Every nonnegative integer below 2⁵³ is an exactly representable
binary64 value: `roundDouble` is the identity there. -/
theorem roundDouble_int (n : ℤ) (h0 : 0 ≤ n) (h53 : n < 2 ^ 53) :
    roundDouble (n : ℚ) = (n : ℚ) := by
  rcases eq_or_lt_of_le h0 with h | hpos
  · rw [← h]
    simp [roundDouble]
  · have hq : (0 : ℚ) < (n : ℚ) := by exact_mod_cast hpos
    rw [roundDouble, if_neg (ne_of_gt hq), if_neg (not_lt.2 hq.le)]
    have he0 : 0 ≤ Int.log 2 ((n : ℚ)) := by
      have h1n : (1 : ℚ) ≤ (n : ℚ) := by exact_mod_cast hpos
      calc (0 : ℤ) = Int.log 2 (1 : ℚ) := (Int.log_one_right 2).symm
        _ ≤ Int.log 2 ((n : ℚ)) := Int.log_mono_right (by norm_num) h1n
    have he52 : Int.log 2 ((n : ℚ)) ≤ 52 := by
      by_contra hcon
      push_neg at hcon
      have h2e : (2 : ℚ) ^ (53 : ℤ) ≤ (2 : ℚ) ^ Int.log 2 ((n : ℚ)) :=
        zpow_le_zpow_right₀ (by norm_num) (by omega)
      have hle : (2 : ℚ) ^ Int.log 2 ((n : ℚ)) ≤ (n : ℚ) :=
        Int.zpow_log_le_self (by norm_num) hq
      have hlt : (n : ℚ) < (2 : ℚ) ^ (53 : ℤ) := by
        have hcast : ((2 ^ 53 : ℤ) : ℚ) = (2 : ℚ) ^ (53 : ℤ) := by
          push_cast
          norm_num
        rw [← hcast]
        exact_mod_cast h53
      linarith
    obtain ⟨k, hk⟩ : ∃ k : ℕ, Int.log 2 ((n : ℚ)) - 52 = -(k : ℤ) :=
      ⟨(52 - Int.log 2 ((n : ℚ))).toNat, by omega⟩
    have hscale : (2 : ℚ) ^ (Int.log 2 ((n : ℚ)) - 52) = ((2 : ℚ) ^ k)⁻¹ := by
      rw [hk, zpow_neg, zpow_natCast]
    have hcast : (n : ℚ) * 2 ^ k = ((n * 2 ^ k : ℤ) : ℚ) := by
      push_cast
      ring
    have hfl : ⌊(n : ℚ) / (2 : ℚ) ^ (Int.log 2 ((n : ℚ)) - 52)⌋ = n * 2 ^ k := by
      rw [hscale, div_eq_mul_inv, inv_inv, hcast]
      exact Int.floor_intCast _
    have hrem : (n : ℚ) / (2 : ℚ) ^ (Int.log 2 ((n : ℚ)) - 52) -
        ((n * 2 ^ k : ℤ) : ℚ) < 1 / 2 := by
      rw [hscale, div_eq_mul_inv, inv_inv, hcast]
      norm_num
    have hres := roundMantissa_eval_down (n : ℚ) (Int.log 2 ((n : ℚ)))
      (n * 2 ^ k) rfl hfl hrem
    rw [hres, hscale]
    push_cast
    have h2k : ((2 : ℚ) ^ k) ≠ 0 := by positivity
    field_simp

/-- The scaled whole-unit amount 5 USDT × 10⁶ is exactly representable. -/
theorem roundDouble_5000000 : roundDouble (5000000 : ℚ) = 5000000 := by
  have h := roundDouble_int 5000000 (by norm_num) (by norm_num)
  simpa using h

-- ============================================================================
-- Transaction decoder (lib/blockchain/tx-validator.ts)
-- ============================================================================

/-- The `placeBet(uint8,uint256)` function selector, `0x4cf088d9`, as the
first ten characters of the hex payload string. -/
def PLACE_BET_SELECTOR : List Char :=
  ['0', 'x', '4', 'c', 'f', '0', '8', '8', 'd', '9']

/-- Value of one hex digit, as accepted by a JS `BigInt("0x…")` literal
(both cases); `none` for any other character. -/
def hexCharVal (c : Char) : Option ℕ :=
  if '0' ≤ c ∧ c ≤ '9' then some (c.toNat - '0'.toNat)
  else if 'a' ≤ c ∧ c ≤ 'f' then some (c.toNat - 'a'.toNat + 10)
  else if 'A' ≤ c ∧ c ≤ 'F' then some (c.toNat - 'A'.toNat + 10)
  else none

def parseHexAux (acc : ℕ) : List Char → Option ℕ
  | [] => some acc
  | c :: cs =>
    match hexCharVal c with
    | none => none
    | some v => parseHexAux (acc * 16 + v) cs

/-- Model of `BigInt("0x" + s)`: `none` models the thrown `SyntaxError`
(empty digit string or a non-hex character), which the decoder's
`try`/`catch` turns into a decode failure. -/
def parseHexNat (s : List Char) : Option ℕ :=
  if s = [] then none else parseHexAux 0 s

/-- Mirror of the `DecodedBetTransaction` interface. -/
structure DecodedBetTransaction where
  isValid : Bool
  choice : Option BetChoice
  amount : Option ℤ
  error : Option String
deriving DecidableEq, Repr

def decodeFailure (msg : String) : DecodedBetTransaction :=
  { isValid := false, choice := none, amount := none, error := some msg }

/-- Mirror of `decodePlaceBetTransaction`.  The payload is the transaction
input as a hex string (a `List Char` including the leading `0x`).  Branches
in source order: selector, parameter length (128 hex chars for two 32-byte
words), choice word parse and `{0,1}` check, amount word parse and
`[MIN_BET_WEI, MAX_BET_WEI]` range check. -/
def decodePlaceBetTransaction (transactionData : List Char) :
    DecodedBetTransaction :=
  if transactionData.take 10 ≠ PLACE_BET_SELECTOR then
    decodeFailure "Not a placeBet transaction"
  else
    let params := transactionData.drop 10
    if params.length ≠ 128 then
      decodeFailure "Invalid transaction data length"
    else
      match parseHexNat (params.take 64) with
      | none => decodeFailure "Failed to decode transaction"
      | some choiceVal =>
        if choiceVal ≠ 0 ∧ choiceVal ≠ 1 then
          decodeFailure "Invalid bet choice value"
        else
          let choice := if choiceVal = 0 then BetChoice.YES else BetChoice.NO
          match parseHexNat (params.drop 64) with
          | none => decodeFailure "Failed to decode transaction"
          | some amount =>
            if (amount : ℤ) < BET_LIMITS.MIN_BET_WEI ∨
                (amount : ℤ) > BET_LIMITS.MAX_BET_WEI then
              decodeFailure "Amount outside bet limits"
            else
              { isValid := true, choice := some choice,
                amount := some (amount : ℤ), error := none }

/-- Result record of `validateDecodedBet`. -/
structure DecodeValidation where
  isValid : Bool
  errors : List String
deriving DecidableEq, Repr

/-- Mirror of `validateDecodedBet`.  The first guard models the JS-falsy
test `!decoded.isValid || !decoded.choice || !decoded.amount` (where an
amount of `0n` is falsy too).  `BigInt(userAmount * 10 ** 6)` computes the
product as a binary64 float — `roundDouble` of the exact product, the
argument being the exact value of the caller's double — and throws a
`RangeError` when that double is not an integer; the thrown error is
modelled by `none` and is caught by `validateBetTransaction`'s
`try`/`catch`. -/
def validateDecodedBet (decoded : DecodedBetTransaction)
    (userChoice : BetChoice) (userAmount : ℚ) : Option DecodeValidation :=
  if decoded.isValid = false ∨ decoded.choice = none ∨
      decoded.amount = none ∨ decoded.amount = some 0 then
    some { isValid := false, errors := ["Transaction could not be decoded"] }
  else
    let choiceErrors :=
      if decoded.choice ≠ some userChoice then
        ["Bet choice mismatch"]
      else []
    let scaled := roundDouble (userAmount * 10 ^ BET_LIMITS.USDT_DECIMALS)
    if h : scaled.den = 1 then
      let expectedAmount : ℤ := scaled.num
      let decodedAmount : ℤ := decoded.amount.getD 0
      let amountDiff :=
        if decodedAmount > expectedAmount then decodedAmount - expectedAmount
        else expectedAmount - decodedAmount
      let amountErrors :=
        if amountDiff > 1 then ["Bet amount mismatch"] else []
      let errors := choiceErrors ++ amountErrors
      some { isValid := errors = [], errors := errors }
    else
      none

-- Hex encoding of a placeBet payload (for stating decoder round-trips)
-- ============================================================================

/-- Lowercase hex digit for a value below 16. -/
def hexDigitChar (n : ℕ) : Char :=
  if n < 10 then Char.ofNat (48 + n) else Char.ofNat (87 + n)

/-- Big-endian, zero-padded hex rendering of `n` on `len` digits. -/
def natToHex : ℕ → ℕ → List Char
  | 0, _ => []
  | len + 1, n => hexDigitChar (n / 16 ^ len % 16) :: natToHex len n

/-- ABI encoding of a `placeBet(choice, amount)` call: selector followed by
two 32-byte big-endian words. -/
def encodePlaceBet (choiceWord amountWord : ℕ) : List Char :=
  PLACE_BET_SELECTOR ++ natToHex 64 choiceWord ++ natToHex 64 amountWord

theorem natToHex_length (len n : ℕ) : (natToHex len n).length = len := by
  induction len generalizing n with
  | zero => rfl
  | succ k ih => simp [natToHex, ih]

theorem hexCharVal_hexDigitChar (m : ℕ) (h : m < 16) :
    hexCharVal (hexDigitChar m) = some m := by
  interval_cases m <;> decide

theorem parseHexAux_natToHex (len : ℕ) : ∀ (n acc : ℕ),
    parseHexAux acc (natToHex len n) = some (acc * 16 ^ len + n % 16 ^ len) := by
  induction len with
  | zero => intro n acc; simp [natToHex, parseHexAux, Nat.mod_one]
  | succ k ih =>
    intro n acc
    have hd : n / 16 ^ k % 16 < 16 := Nat.mod_lt _ (by norm_num)
    rw [natToHex, parseHexAux, hexCharVal_hexDigitChar _ hd]
    simp only []
    rw [ih]
    congr 1
    have hsplit : n % 16 ^ (k + 1) = 16 ^ k * (n / 16 ^ k % 16) + n % 16 ^ k := by
      rw [pow_succ, Nat.mod_mul]
      ring
    rw [hsplit]
    ring

theorem parseHexNat_natToHex64 (n : ℕ) (h : n < 16 ^ 64) :
    parseHexNat (natToHex 64 n) = some n := by
  have hne : natToHex 64 n ≠ [] := by
    intro hcontra
    have := natToHex_length 64 n
    rw [hcontra] at this
    simp at this
  rw [parseHexNat, if_neg hne, parseHexAux_natToHex]
  rw [Nat.mod_eq_of_lt h]
  simp


-- ============================================================================
-- Store rows and queries (lib/db/client.ts, prisma models of lib/types)
-- ============================================================================

/-- Mirror of the Prisma `Market` model (the fields the confirm and
live-stats routes read). -/
structure MarketRow where
  marketId : String
  status : String
  winner : Option String
  yesPool : ℤ
  noPool : ℤ
  endDate : ℤ
deriving DecidableEq, Repr

/-- Mirror of the Prisma `Bet` model (the fields the routes read/write). -/
structure BetRow where
  id : ℕ
  walletAddress : String
  marketId : String
  choice : BetChoice
  amount : ℤ
  betNumber : ℕ
  status : String
  txHash : String
  createdAt : ℤ
deriving DecidableEq, Repr

/-- Mirror of the Prisma `BetHistory` model (audit trail). -/
structure BetHistoryRow where
  betId : ℕ
  marketId : String
  wallet : String
  action : String
deriving DecidableEq, Repr

/-- Mirror of the Prisma `PoolSnapshot` model. -/
structure PoolSnapshotRow where
  marketId : String
  yesPool : ℤ
  noPool : ℤ
  totalBets : ℕ
deriving DecidableEq, Repr

/-- The transactional store: the five tables the confirm route touches,
plus the id the next created bet receives.  `flaggedWallets` maps a wallet
to its `isActive` flag. -/
structure Db where
  markets : List MarketRow
  bets : List BetRow
  betHistory : List BetHistoryRow
  poolSnapshots : List PoolSnapshotRow
  flaggedWallets : List (String × Bool)
  nextBetId : ℕ
deriving DecidableEq, Repr

/-- Mirror of `getMarketById` / `db.market.findUnique`. -/
def findMarket (db : Db) (marketId : String) : Option MarketRow :=
  db.markets.find? (fun r => r.marketId == marketId)

/-- Mirror of `getUserBetCount`: `db.bet.count` for the wallet and market. -/
def getUserBetCount (db : Db) (wallet marketId : String) : ℕ :=
  (db.bets.filter (fun b => b.walletAddress == wallet && b.marketId == marketId)).length

/-- Mirror of `getUserTotalBetAmount`: sum of `amount` over the wallet's
bets on the market (`0n` when there are none). -/
def getUserTotalBetAmount (db : Db) (wallet marketId : String) : ℤ :=
  ((db.bets.filter (fun b => b.walletAddress == wallet && b.marketId == marketId)).map
    (fun b => b.amount)).sum

/-- Timestamp of the wallet's most recent bet on the market
(`orderBy createdAt desc, take 1`). -/
def latestBetTime (db : Db) (wallet marketId : String) : Option ℤ :=
  ((db.bets.filter (fun b => b.walletAddress == wallet && b.marketId == marketId)).map
    (fun b => b.createdAt)).max?

-- ============================================================================
-- validateBetTransaction (lib/blockchain/tx-validator.ts), network abstracted
-- ============================================================================

/-- Inputs of `validateBetTransaction` that come from the chain:
whether `validateTransactionOnChain` succeeded, whether the receipt checks
of `validateTransactionReceipt` passed (destination contract, status, gas),
and the raw transaction input payload. -/
structure TxEnv where
  onChainValid : Bool
  receiptOk : Bool
  txData : Option (List Char)
deriving DecidableEq, Repr

/-- The fields of `ValidatedBetTransaction` the confirm route consumes. -/
structure TxValidationModel where
  isValid : Bool
  choice : Option BetChoice
  amount : Option ℚ
  amountWei : Option ℤ
deriving DecidableEq, Repr

def txValidationFailure : TxValidationModel :=
  { isValid := false, choice := none, amount := none, amountWei := none }

/-- Mirror of `validateBetTransaction` with the two network reads abstracted
into `TxEnv`: early returns for an on-chain failure, missing transaction
data and failed receipt checks; then `decodePlaceBetTransaction` and
`validateDecodedBet` exactly as in the source (a `none` from the latter is
the JS exception, caught by the function's `try`/`catch`).  The returned
USDT amount is `Number(decoded.amount) / 10 ** USDT_DECIMALS`; the model
uses the exact quotient — the binary64 rounding of this division is below
10⁻⁹ for every amount within the bet limits, six orders of magnitude under
the coarsest comparison (0.01) it feeds. -/
def validateBetTransactionModel (env : TxEnv) (userChoice : BetChoice)
    (userAmount : ℚ) : TxValidationModel :=
  if env.onChainValid = false then txValidationFailure
  else
    match env.txData with
    | none => txValidationFailure
    | some data =>
      if env.receiptOk = false then txValidationFailure
      else
        let decoded := decodePlaceBetTransaction data
        if decoded.isValid = false then txValidationFailure
        else
          match validateDecodedBet decoded userChoice userAmount with
          | none => txValidationFailure
          | some dv =>
            { isValid := dv.errors = [],
              choice := decoded.choice,
              amount := (decoded.amount).map
                (fun a => (a : ℚ) / 10 ^ BET_LIMITS.USDT_DECIMALS),
              amountWei := decoded.amount }

-- ============================================================================
-- POST /api/bets/confirm (app/api/bets/confirm/route.ts)
-- ============================================================================

/-- Request body of the confirm endpoint (already typed: `validateRequest`'s
`typeof` checks cannot fail in the model, its falsy/format checks are in
`postConfirm`). -/
structure ConfirmRequest where
  txHash : String
  marketId : String
  choice : BetChoice
  amount : ℚ
  walletAddress : String
deriving DecidableEq, Repr

inductive ConfirmResult where
  | ok (betId : ℕ)
  | err (code : String) (status : ℕ)
deriving DecidableEq, Repr

def ConfirmResult.isOk : ConfirmResult → Bool
  | .ok _ => true
  | .err _ _ => false

/-- Modelled from the spec: the Prisma schema is not among the shipped
sources; per the spec's data model the Bet table carries a uniqueness
constraint on the transaction reference ("no two Bet rows share a
transaction reference"), so `db.bet.create` throws on a duplicate
`txHash`.  This predicate is that constraint's duplicate test. -/
def betTxHashTaken (db : Db) (txHash : String) : Bool :=
  db.bets.any (fun b => b.txHash == txHash)

/-- Settlement writes of the confirm route, STEP 8 – STEP 11: create the
bet row, append the PLACED audit entry, update the market pools (from the
market row read at STEP 2, as the source does), and append a pool
snapshot.  The four writes are four separate awaited store calls in the
source — no store transaction wraps them — so `failAt = some i` models the
i-th write throwing (store failure), which the route's `catch` turns into
a 500 `INTERNAL_ERROR` with every earlier write already durable.  The
bet-row create also throws on the spec-modelled duplicate-`txHash`
constraint. -/
def runSettlement (req : ConfirmRequest) (now : ℤ) (market : MarketRow)
    (userBetCount : ℕ) (failAt : Option ℕ) (db : Db) : ConfirmResult × Db :=
  let amountWei : ℤ := ⌊req.amount * 10 ^ BET_LIMITS.USDT_DECIMALS⌋
  if failAt = some 0 ∨ betTxHashTaken db req.txHash then
    (.err "INTERNAL_ERROR" 500, db)
  else
    let bet : BetRow :=
      { id := db.nextBetId, walletAddress := req.walletAddress,
        marketId := req.marketId, choice := req.choice, amount := amountWei,
        betNumber := userBetCount + 1, status := "CONFIRMED",
        txHash := req.txHash, createdAt := now }
    let db1 := { db with bets := db.bets ++ [bet], nextBetId := db.nextBetId + 1 }
    if failAt = some 1 then (.err "INTERNAL_ERROR" 500, db1)
    else
      let db2 := { db1 with betHistory := db1.betHistory ++
        [{ betId := bet.id, marketId := req.marketId,
           wallet := req.walletAddress, action := "PLACED" }] }
      if failAt = some 2 then (.err "INTERNAL_ERROR" 500, db2)
      else
        let db3 := { db2 with markets := db2.markets.map (fun m =>
          if m.marketId == req.marketId then
            (if req.choice = BetChoice.YES then
              { m with yesPool := market.yesPool + amountWei }
            else
              { m with noPool := market.noPool + amountWei })
          else m) }
        if failAt = some 3 then (.err "INTERNAL_ERROR" 500, db3)
        else
          let db4 :=
            match findMarket db3 req.marketId with
            | none => db3
            | some updated =>
              { db3 with poolSnapshots := db3.poolSnapshots ++
                [{ marketId := req.marketId, yesPool := updated.yesPool,
                   noPool := updated.noPool,
                   totalBets := (db3.bets.filter
                     (fun b => b.marketId == req.marketId)).length }] }
          (.ok bet.id, db4)

/-- Mirror of the confirm route's `POST` handler over the store model:
request validation, market fetch and liveness checks, on-chain validation
(`TxEnv` carries the chain reads), the decoded-versus-claimed cross-check,
the wallet-history reads, `validateBetComprehensive`,
`validateBetForContract`, then the settlement writes.  `now` is the
request's clock; `failAt` is the settlement failure schedule. -/
def postConfirm (req : ConfirmRequest) (env : TxEnv) (now : ℤ)
    (failAt : Option ℕ) (db : Db) : ConfirmResult × Db :=
  if req.txHash = "" ∨ req.marketId = "" ∨ req.amount ≤ 0 ∨
      req.walletAddress = "" ∨ ¬ isValidAddress req.walletAddress then
    (.err "INVALID_REQUEST" 400, db)
  else
    match findMarket db req.marketId with
    | none => (.err "MARKET_NOT_FOUND" 404, db)
    | some market =>
      if market.status ≠ "ACTIVE" then (.err "MARKET_NOT_ACTIVE" 400, db)
      else if now > market.endDate then (.err "MARKET_NOT_ACTIVE" 400, db)
      else
        let txv := validateBetTransactionModel env req.choice req.amount
        if txv.isValid = false then (.err "TX_FAILED" 400, db)
        else if txv.choice ≠ some req.choice ∨ txv.amount = none ∨
            txv.amount = some 0 ∨ |txv.amount.getD 0 - req.amount| > 1 / 100 then
          (.err "TX_DATA_MISMATCH" 400, db)
        else
          let userBetCount := getUserBetCount db req.walletAddress req.marketId
          let userTotalBets : ℚ :=
            (getUserTotalBetAmount db req.walletAddress req.marketId : ℚ) /
              10 ^ BET_LIMITS.USDT_DECIMALS
          let isFlagged :=
            ((db.flaggedWallets.find? (fun p => p.1 == req.walletAddress)).map
              (fun p => p.2)).getD false
          let lastBetTime :=
            match latestBetTime db req.walletAddress req.marketId with
            | none => none
            | some t => if t = 0 then none else some t
          let recentBetTimestamps :=
            ((db.bets.filter (fun b => b.walletAddress == req.walletAddress &&
              b.marketId == req.marketId && b.createdAt ≥ now - 3600000)).map
              (fun b => b.createdAt))
          let compInput : BetComprehensiveInput :=
            { walletAddress := req.walletAddress, choice := some req.choice,
              amount := req.amount, lastBetTimestamp := lastBetTime,
              currentBetCount := userBetCount, walletTotalBets := userTotalBets,
              recentBetTimestamps := recentBetTimestamps,
              totalYesPool := (market.yesPool : ℚ) / 10 ^ BET_LIMITS.USDT_DECIMALS,
              totalNoPool := (market.noPool : ℚ) / 10 ^ BET_LIMITS.USDT_DECIMALS,
              marketStatus := market.status,
              marketEndTime := (market.endDate : ℚ) / 1000,
              isFlagged := isFlagged }
          let betValidation := validateBetComprehensive compInput now
          if betValidation.isValid = false then
            (.err (((betValidation.errors.head?).map
              (fun e => e.code)).getD "UNKNOWN") 400, db)
          else
            let contractValidation := validateBetForContract compInput now
            if contractValidation.isValid = false then
              (.err (((contractValidation.errors.head?).map
                (fun e => e.code)).getD "UNKNOWN") 400, db)
            else
              runSettlement req now market userBetCount failAt db

-- ============================================================================
-- A concrete confirmation scenario (used for C1 and C2)
-- ============================================================================

def confirmWallet : String := "0xaaaaaaaaaaaaaaaaaaaaaaaaaaaaaaaaaaaaaaaa"

/-- An active market with 100000 USDT already staked on YES by others. -/
def confirmMarket : MarketRow :=
  { marketId := "m1", status := "ACTIVE", winner := none,
    yesPool := 100000000000, noPool := 0, endDate := 2000000000000 }

def confirmDb0 : Db :=
  { markets := [confirmMarket], bets := [], betHistory := [], poolSnapshots := [],
    flaggedWallets := [], nextBetId := 1 }

/-- A 5-USDT YES bet confirmed against transaction `0x01`. -/
def confirmReq : ConfirmRequest :=
  { txHash := "0x01", marketId := "m1", choice := BetChoice.YES, amount := 5,
    walletAddress := confirmWallet }

/-- Chain environment: the transaction exists, its receipt checks pass, and
its payload is a well-formed `placeBet(YES, 5 USDT)` call. -/
def confirmEnv : TxEnv :=
  { onChainValid := true, receiptOk := true,
    txData := some (encodePlaceBet 0 5000000) }

set_option maxRecDepth 4000 in
theorem decodePlaceBet_yes5 :
    decodePlaceBetTransaction (encodePlaceBet 0 5000000) =
      { isValid := true, choice := some BetChoice.YES,
        amount := some 5000000, error := none } := by decide

/-- Claim-check of a decoded 5-USDT YES bet against a claimed whole 5 USDT:
the float scaling is exact and the discrepancy zero. -/
theorem validateDecodedBet_yes5 :
    validateDecodedBet
      { isValid := true, choice := some BetChoice.YES,
        amount := some 5000000, error := none }
      BetChoice.YES 5 = some { isValid := true, errors := [] } := by
  have hs : roundDouble ((5 : ℚ) * 10 ^ BET_LIMITS.USDT_DECIMALS) = 5000000 := by
    rw [show ((5 : ℚ) * 10 ^ BET_LIMITS.USDT_DECIMALS) = 5000000 from by
      norm_num [BET_LIMITS.USDT_DECIMALS]]
    exact roundDouble_5000000
  norm_num +decide [validateDecodedBet, hs]

set_option maxRecDepth 8000 in
/-- On-chain validation of the 5-USDT YES transaction against the claimed
(YES, 5): decodes and claim-checks cleanly. -/
theorem validateBetTransactionModel_yes5 :
    validateBetTransactionModel confirmEnv BetChoice.YES 5 =
      { isValid := true, choice := some BetChoice.YES, amount := some 5,
        amountWei := some 5000000 } := by
  norm_num +decide [validateBetTransactionModel, confirmEnv, decodePlaceBet_yes5,
    validateDecodedBet_yes5, BET_LIMITS.USDT_DECIMALS]

/-- The bet row the first confirmation inserts. -/
def confirmBet1 : BetRow :=
  { id := 1, walletAddress := confirmWallet, marketId := "m1",
    choice := BetChoice.YES, amount := 5000000, betNumber := 1,
    status := "CONFIRMED", txHash := "0x01", createdAt := 1000000000000 }

def confirmMarketAfter : MarketRow :=
  { marketId := "m1", status := "ACTIVE", winner := none,
    yesPool := 100005000000, noPool := 0, endDate := 2000000000000 }

/-- Store state after the first, fully successful confirmation. -/
def confirmDb1 : Db :=
  { markets := [confirmMarketAfter], bets := [confirmBet1],
    betHistory := [{ betId := 1, marketId := "m1", wallet := confirmWallet,
                     action := "PLACED" }],
    poolSnapshots := [{ marketId := "m1", yesPool := 100005000000,
                        noPool := 0, totalBets := 1 }],
    flaggedWallets := [], nextBetId := 2 }

/-- Store state left behind when the pool update (STEP 10) throws after the
bet row and audit entry were already written. -/
def confirmDbPartial : Db :=
  { markets := [confirmMarket], bets := [confirmBet1],
    betHistory := [{ betId := 1, marketId := "m1", wallet := confirmWallet,
                     action := "PLACED" }],
    poolSnapshots := [], flaggedWallets := [], nextBetId := 2 }

/-- C1: the claim asserts that confirming the same transaction reference
twice yields exactly one Bet row and that the second call returns the
first call's settlement as a success.  Evaluating the route on a concrete
replay (same `txHash`, 400 s apart so that no cooldown or velocity rule
interferes): the first call settles and returns bet id 1; the second call
walks straight into the unconditional `db.bet.create` — the route never
looks up an existing bet by `txHash` — and the spec-modelled uniqueness
constraint makes that create throw, so the caller gets a 500
`INTERNAL_ERROR`, not the existing bet as a success.  Exactly one Bet row
exists, but the idempotent-success half of the claim is false. -/
theorem confirm_replay_returns_500_not_existing_bet :
    postConfirm confirmReq confirmEnv 1000000000000 none confirmDb0 =
      (ConfirmResult.ok 1, confirmDb1) ∧
    postConfirm confirmReq confirmEnv 1000000400000 none confirmDb1 =
      (ConfirmResult.err "INTERNAL_ERROR" 500, confirmDb1) ∧
    (confirmDb1.bets.filter (fun b => b.txHash == confirmReq.txHash)).length = 1 ∧
    ∀ betId, postConfirm confirmReq confirmEnv 1000000400000 none confirmDb1 ≠
      (ConfirmResult.ok betId, confirmDb1) := by
  refine ⟨?_, ?_, by decide, ?_⟩
  · set_option maxRecDepth 8000 in
    norm_num +decide [postConfirm, confirmReq, confirmDb0,
      confirmMarket, confirmWallet, confirmDb1, confirmMarketAfter, confirmBet1,
      validateBetTransactionModel_yes5,
      validateBetComprehensive, comprehensiveStageOne, validateBetForContract,
      validateWalletAddress, isValidAddress, validateBetChoice, validateBetAmount,
      validateMarketActive, validateWalletNotFlagged, validateCooldown,
      validateBetCount, validatePoolCap, validateBetVelocity,
      findMarket, getUserBetCount, getUserTotalBetAmount, latestBetTime,
      runSettlement, betTxHashTaken, roundDouble_5000000,
      BET_LIMITS.MIN_BET, BET_LIMITS.MAX_BET, BET_LIMITS.USDT_DECIMALS,
      ANTI_MANIPULATION.COOLDOWN_SECONDS, ANTI_MANIPULATION.MAX_BETS_PER_WALLET,
      ANTI_MANIPULATION.POOL_CAP_PERCENT, ANTI_MANIPULATION.MAX_BETS_IN_1_HOUR]
  · set_option maxRecDepth 8000 in
    norm_num +decide [postConfirm, confirmReq,
      confirmMarket, confirmWallet, confirmDb1, confirmMarketAfter, confirmBet1,
      validateBetTransactionModel_yes5,
      validateBetComprehensive, comprehensiveStageOne, validateBetForContract,
      validateWalletAddress, isValidAddress, validateBetChoice, validateBetAmount,
      validateMarketActive, validateWalletNotFlagged, validateCooldown,
      validateBetCount, validatePoolCap, validateBetVelocity,
      findMarket, getUserBetCount, getUserTotalBetAmount, latestBetTime,
      runSettlement, betTxHashTaken, roundDouble_5000000,
      BET_LIMITS.MIN_BET, BET_LIMITS.MAX_BET, BET_LIMITS.USDT_DECIMALS,
      ANTI_MANIPULATION.COOLDOWN_SECONDS, ANTI_MANIPULATION.MAX_BETS_PER_WALLET,
      ANTI_MANIPULATION.POOL_CAP_PERCENT, ANTI_MANIPULATION.MAX_BETS_IN_1_HOUR]
  · intro betId hcontra
    have h2 : postConfirm confirmReq confirmEnv 1000000400000 none confirmDb1 =
        (ConfirmResult.err "INTERNAL_ERROR" 500, confirmDb1) := by
      set_option maxRecDepth 8000 in
      norm_num +decide [postConfirm, confirmReq,
        confirmMarket, confirmWallet, confirmDb1, confirmMarketAfter, confirmBet1,
        validateBetTransactionModel_yes5,
        validateBetComprehensive, comprehensiveStageOne, validateBetForContract,
        validateWalletAddress, isValidAddress, validateBetChoice, validateBetAmount,
        validateMarketActive, validateWalletNotFlagged, validateCooldown,
        validateBetCount, validatePoolCap, validateBetVelocity,
        findMarket, getUserBetCount, getUserTotalBetAmount, latestBetTime,
        runSettlement, betTxHashTaken, roundDouble_5000000,
        BET_LIMITS.MIN_BET, BET_LIMITS.MAX_BET, BET_LIMITS.USDT_DECIMALS,
        ANTI_MANIPULATION.COOLDOWN_SECONDS, ANTI_MANIPULATION.MAX_BETS_PER_WALLET,
        ANTI_MANIPULATION.POOL_CAP_PERCENT, ANTI_MANIPULATION.MAX_BETS_IN_1_HOUR]
    rw [h2] at hcontra
    simp at hcontra

/-- C2: the claim asserts the four settlement writes are one atomic unit.
The source performs them as four separate awaited store calls with no
transaction; evaluating the route with the pool update (STEP 10) throwing:
the caller gets a 500, yet the store keeps the already-written Bet row and
PLACED audit entry while the market pools are unchanged and no snapshot
exists — exactly the "Bet row without its pool increment" partial state
the claim rules out. -/
theorem settlement_failure_leaves_partial_state :
    postConfirm confirmReq confirmEnv 1000000000000 (some 2) confirmDb0 =
      (ConfirmResult.err "INTERNAL_ERROR" 500, confirmDbPartial) ∧
    (confirmDbPartial.bets.filter (fun b => b.txHash == confirmReq.txHash)).length = 1 ∧
    findMarket confirmDbPartial "m1" = some confirmMarket ∧
    confirmMarket.yesPool = 100000000000 ∧ confirmMarket.noPool = 0 ∧
    confirmDbPartial.poolSnapshots = [] := by
  refine ⟨?_, by decide, by decide, by decide, by decide, by decide⟩
  set_option maxRecDepth 8000 in
  norm_num +decide [postConfirm, confirmReq, confirmDb0,
    confirmMarket, confirmWallet, confirmDbPartial, confirmBet1,
    validateBetTransactionModel_yes5,
    validateBetComprehensive, comprehensiveStageOne, validateBetForContract,
    validateWalletAddress, isValidAddress, validateBetChoice, validateBetAmount,
    validateMarketActive, validateWalletNotFlagged, validateCooldown,
    validateBetCount, validatePoolCap, validateBetVelocity,
    findMarket, getUserBetCount, getUserTotalBetAmount, latestBetTime,
    runSettlement, betTxHashTaken,
    BET_LIMITS.MIN_BET, BET_LIMITS.MAX_BET, BET_LIMITS.USDT_DECIMALS,
    ANTI_MANIPULATION.COOLDOWN_SECONDS, ANTI_MANIPULATION.MAX_BETS_PER_WALLET,
    ANTI_MANIPULATION.POOL_CAP_PERCENT, ANTI_MANIPULATION.MAX_BETS_IN_1_HOUR]

theorem ite_sub_abs (a e : ℤ) : (if a > e then a - e else e - a) = |a - e| := by
  rcases le_or_lt a e with h | h
  · rw [if_neg (not_lt.2 h), abs_of_nonpos (by omega)]
    omega
  · rw [if_pos h, abs_of_pos (by omega)]

theorem postConfirm_txInvalid (req : ConfirmRequest) (env : TxEnv) (now : ℤ)
    (failAt : Option ℕ) (db : Db)
    (h : (validateBetTransactionModel env req.choice req.amount).isValid = false) :
    (postConfirm req env now failAt db).1.isOk = false ∧
    (postConfirm req env now failAt db).2 = db := by
  simp only [postConfirm]
  repeat' split
  all_goals try exact ⟨rfl, rfl⟩
  all_goals exact absurd h (by assumption)

theorem postConfirm_ok_txValid (req : ConfirmRequest) (env : TxEnv) (now : ℤ)
    (failAt : Option ℕ) (db : Db) (b : ℕ)
    (h : (postConfirm req env now failAt db).1 = ConfirmResult.ok b) :
    (validateBetTransactionModel env req.choice req.amount).isValid = true := by
  by_contra hne
  have hfalse : (validateBetTransactionModel env req.choice req.amount).isValid = false := by
    cases hb : (validateBetTransactionModel env req.choice req.amount).isValid
    · rfl
    · exact absurd hb hne
  obtain ⟨h1, -⟩ := postConfirm_txInvalid req env now failAt db hfalse
  rw [h] at h1
  simp [ConfirmResult.isOk] at h1

theorem txValid_decoded (env : TxEnv) (uc : BetChoice) (ua : ℚ) (data : List Char)
    (hdata : env.txData = some data)
    (h : (validateBetTransactionModel env uc ua).isValid = true) :
    (decodePlaceBetTransaction data).isValid = true ∧
    ∃ dv, validateDecodedBet (decodePlaceBetTransaction data) uc ua = some dv ∧
      dv.errors = [] := by
  simp only [validateBetTransactionModel, hdata] at h
  split_ifs at h with h1 h2 h3
  · exact absurd h (by simp [txValidationFailure])
  · exact absurd h (by simp [txValidationFailure])
  · exact absurd h (by simp [txValidationFailure])
  · cases hdv : validateDecodedBet (decodePlaceBetTransaction data) uc ua with
    | none =>
      rw [hdv] at h
      exact absurd h (by simp [txValidationFailure])
    | some dv =>
      rw [hdv] at h
      simp only [] at h
      refine ⟨by simpa using h3, dv, rfl, ?_⟩
      exact of_decide_eq_true h

theorem validateDecodedBet_spec (d : DecodedBetTransaction) (c : BetChoice)
    (a : ℤ) (uc : BetChoice) (ua : ℕ)
    (h1 : d.isValid = true) (h2 : d.choice = some c) (h3 : d.amount = some a)
    (h4 : a ≠ 0) (hua : (ua : ℚ) ≤ BET_LIMITS.MAX_BET) :
    ∃ r, validateDecodedBet d uc (ua : ℚ) = some r ∧
      (r.isValid = true ↔
        (c = uc ∧ |a - (ua : ℤ) * 10 ^ BET_LIMITS.USDT_DECIMALS| ≤ 1)) ∧
      (r.errors = [] ↔
        (c = uc ∧ |a - (ua : ℤ) * 10 ^ BET_LIMITS.USDT_DECIMALS| ≤ 1)) := by
  have hguard : ¬ (d.isValid = false ∨ d.choice = none ∨ d.amount = none ∨
      d.amount = some 0) := by
    simp [h1, h2, h3]
    exact h4
  have hua' : ua ≤ 5000 := by
    rw [BET_LIMITS.MAX_BET] at hua
    exact_mod_cast hua
  have hprod : ((ua : ℚ) * 10 ^ BET_LIMITS.USDT_DECIMALS) =
      (((ua * 10 ^ 6 : ℕ) : ℤ) : ℚ) := by
    push_cast [BET_LIMITS.USDT_DECIMALS]
    ring
  have hround : roundDouble ((ua : ℚ) * 10 ^ BET_LIMITS.USDT_DECIMALS) =
      (((ua * 10 ^ 6 : ℕ) : ℤ) : ℚ) := by
    rw [hprod]
    refine roundDouble_int _ (by positivity) ?_
    have hb : ua * 10 ^ 6 ≤ 5000 * 10 ^ 6 := Nat.mul_le_mul_right _ hua'
    have hb2 : ua * 10 ^ 6 < 2 ^ 53 := lt_of_le_of_lt hb (by norm_num)
    exact_mod_cast hb2
  have hden : (roundDouble ((ua : ℚ) * 10 ^ BET_LIMITS.USDT_DECIMALS)).den = 1 := by
    rw [hround]
    exact Rat.den_intCast _
  have hnum : (roundDouble ((ua : ℚ) * 10 ^ BET_LIMITS.USDT_DECIMALS)).num =
      (ua : ℤ) * 10 ^ BET_LIMITS.USDT_DECIMALS := by
    rw [hround, Rat.num_intCast]
    push_cast [BET_LIMITS.USDT_DECIMALS]
    ring
  simp only [validateDecodedBet]
  rw [if_neg hguard, dif_pos hden]
  refine ⟨_, rfl, ?_, ?_⟩ <;>
  · simp only [h2, h3, Option.getD_some, hnum, ite_sub_abs]
    by_cases hc : c = uc <;>
      by_cases hd : |a - (ua : ℤ) * 10 ^ BET_LIMITS.USDT_DECIMALS| ≤ 1
    · simp [hc, hd, not_lt.2 hd]
    · simp [hc, hd, lt_of_not_le hd]
    · simp [hc, hd, not_lt.2 hd]
    · simp [hc, hd, lt_of_not_le hd]

theorem decode_invalid_bad_choice (data : List Char) (c : ℕ)
    (hsel : data.take 10 = PLACE_BET_SELECTOR)
    (hlen : (data.drop 10).length = 128)
    (hc : parseHexNat ((data.drop 10).take 64) = some c)
    (hc0 : c ≠ 0) (hc1 : c ≠ 1) :
    (decodePlaceBetTransaction data).isValid = false := by
  simp only [decodePlaceBetTransaction]
  rw [if_neg (by simp [hsel]), if_neg (by simp [hlen])]
  simp only [hc]
  rw [if_pos (And.intro hc0 hc1)]
  rfl

theorem decode_invalid_bad_amount (data : List Char) (c a : ℕ)
    (hsel : data.take 10 = PLACE_BET_SELECTOR)
    (hlen : (data.drop 10).length = 128)
    (hc : parseHexNat ((data.drop 10).take 64) = some c)
    (hcv : c = 0 ∨ c = 1)
    (ha : parseHexNat ((data.drop 10).drop 64) = some a)
    (hrange : (a : ℤ) < BET_LIMITS.MIN_BET_WEI ∨ (a : ℤ) > BET_LIMITS.MAX_BET_WEI) :
    (decodePlaceBetTransaction data).isValid = false := by
  simp only [decodePlaceBetTransaction]
  rw [if_neg (by simp [hsel]), if_neg (by simp [hlen])]
  simp only [hc]
  rw [if_neg (by rcases hcv with h | h <;> simp [h])]
  simp only [ha]
  rw [if_pos hrange]
  rfl

theorem decode_wellformed (c a : ℕ) (hcv : c = 0 ∨ c = 1)
    (hmin : BET_LIMITS.MIN_BET_WEI ≤ (a : ℤ)) (hmax : (a : ℤ) ≤ BET_LIMITS.MAX_BET_WEI) :
    decodePlaceBetTransaction (encodePlaceBet c a) =
      { isValid := true,
        choice := some (if c = 0 then BetChoice.YES else BetChoice.NO),
        amount := some (a : ℤ), error := none } := by
  have hsel : (encodePlaceBet c a).take 10 = PLACE_BET_SELECTOR := by
    rw [encodePlaceBet, List.append_assoc,
      show (10 : ℕ) = PLACE_BET_SELECTOR.length from rfl]
    exact List.take_left _ _
  have hdrop : (encodePlaceBet c a).drop 10 = natToHex 64 c ++ natToHex 64 a := by
    rw [encodePlaceBet, List.append_assoc,
      show (10 : ℕ) = PLACE_BET_SELECTOR.length from rfl]
    exact List.drop_left _ _
  have hlen : ((encodePlaceBet c a).drop 10).length = 128 := by
    rw [hdrop]
    simp [natToHex_length]
  have htake64 : ((encodePlaceBet c a).drop 10).take 64 = natToHex 64 c := by
    rw [hdrop, show (64 : ℕ) = (natToHex 64 c).length from (natToHex_length 64 c).symm]
    exact List.take_left _ _
  have hdrop64 : ((encodePlaceBet c a).drop 10).drop 64 = natToHex 64 a := by
    rw [hdrop, show (64 : ℕ) = (natToHex 64 c).length from (natToHex_length 64 c).symm]
    exact List.drop_left _ _
  have hc : parseHexNat (((encodePlaceBet c a).drop 10).take 64) = some c := by
    rw [htake64]
    exact parseHexNat_natToHex64 c (by rcases hcv with h | h <;> subst h <;> norm_num)
  have ha : parseHexNat (((encodePlaceBet c a).drop 10).drop 64) = some a := by
    rw [hdrop64]
    refine parseHexNat_natToHex64 a ?_
    have : (a : ℤ) ≤ 5000000000 := by
      simpa [BET_LIMITS.MAX_BET_WEI] using hmax
    have ha' : a ≤ 5000000000 := by exact_mod_cast this
    calc a ≤ 5000000000 := ha'
      _ < 16 ^ 64 := by norm_num
  simp only [decodePlaceBetTransaction]
  rw [if_neg (by simp [hsel]), if_neg (by simp [hlen])]
  simp only [hc]
  rw [if_neg (by rcases hcv with h | h <;> simp [h])]
  simp only [ha]
  rw [if_neg (by push_neg; exact ⟨hmin, hmax⟩)]

theorem validateDecodedBet_isValid_iff (d : DecodedBetTransaction)
    (uc : BetChoice) (ua : ℚ) (dv : DecodeValidation)
    (h : validateDecodedBet d uc ua = some dv) :
    dv.isValid = decide (dv.errors = []) := by
  simp only [validateDecodedBet] at h
  split_ifs at h
  all_goals injection h with h'
  all_goals subst h'
  all_goals rfl

/-- Exact binary64 value of `userAmount * 10 ** 6` for the claimed amount
5.0000001 USDT (whose double is 5629499646803111 × 2⁻⁵⁰): the float
product rounds up to 5368709227374183 × 2⁻³⁰ ≈ 5000000.100000001, which
is not an integer, so `BigInt` throws on it. -/
theorem roundDouble_frac_scaled :
    roundDouble ((5629499646803111 / 1125899906842624 : ℚ) *
        10 ^ BET_LIMITS.USDT_DECIMALS) =
      5368709227374183 / 1073741824 := by
  rw [roundDouble, if_neg (by norm_num [BET_LIMITS.USDT_DECIMALS]),
      if_neg (by norm_num [BET_LIMITS.USDT_DECIMALS])]
  have h := roundMantissa_eval_up
    ((5629499646803111 / 1125899906842624 : ℚ) * 10 ^ BET_LIMITS.USDT_DECIMALS)
    22 5368709227374182 ?_ ?_ ?_
  · rw [h]
    norm_num [BET_LIMITS.USDT_DECIMALS]
  · exact intLog2_eq (by norm_num [BET_LIMITS.USDT_DECIMALS])
      (by norm_num [BET_LIMITS.USDT_DECIMALS])
      (by norm_num [BET_LIMITS.USDT_DECIMALS])
  · rw [Int.floor_eq_iff] <;> norm_num [BET_LIMITS.USDT_DECIMALS]
  · norm_num [BET_LIMITS.USDT_DECIMALS]

/-- Claim-check of a decoded 5-USDT bet against the claimed fractional
amount 5.0000001 USDT: the scaled product is a non-integral double, the
`BigInt` conversion throws (`none`). -/
theorem validateDecodedBet_frac_none :
    validateDecodedBet
      { isValid := true, choice := some BetChoice.YES,
        amount := some 5000000, error := none }
      BetChoice.YES (5629499646803111 / 1125899906842624) = none := by
  simp only [validateDecodedBet]
  rw [if_neg (by decide)]
  rw [dif_neg (by rw [roundDouble_frac_scaled]; norm_num [Rat.den])]

/-- C5 counterexample: the claim states that a discrepancy of at most one
smallest unit between decoded and claimed amount is accepted.  For the
claimed amount 5.0000001 USDT (as its binary64 double) against a decoded
5000000 wei the discrepancy is about 0.1 smallest units, yet
`BigInt(userAmount * 10 ** 6)` throws on the non-integral float product,
the claim check returns an exception, the on-chain validation reports
failure, and the confirmation fails with the store untouched. -/
theorem fractional_claim_rejected_despite_small_discrepancy :
    |(5000000 : ℚ) - (5629499646803111 / 1125899906842624 : ℚ) *
        10 ^ BET_LIMITS.USDT_DECIMALS| ≤ 1 ∧
    validateDecodedBet
      { isValid := true, choice := some BetChoice.YES,
        amount := some 5000000, error := none }
      BetChoice.YES (5629499646803111 / 1125899906842624) = none ∧
    validateBetTransactionModel confirmEnv BetChoice.YES
      (5629499646803111 / 1125899906842624) = txValidationFailure ∧
    (postConfirm { confirmReq with amount := 5629499646803111 / 1125899906842624 }
        confirmEnv 1000000000000 none confirmDb0).1.isOk = false ∧
    (postConfirm { confirmReq with amount := 5629499646803111 / 1125899906842624 }
        confirmEnv 1000000000000 none confirmDb0).2 = confirmDb0 := by
  have hmodel : validateBetTransactionModel confirmEnv BetChoice.YES
      (5629499646803111 / 1125899906842624) = txValidationFailure := by
    simp [validateBetTransactionModel, confirmEnv, decodePlaceBet_yes5,
      validateDecodedBet_frac_none]
  obtain ⟨hok, hdb⟩ := postConfirm_txInvalid
    { confirmReq with amount := 5629499646803111 / 1125899906842624 }
    confirmEnv 1000000000000 none confirmDb0
    (by show (validateBetTransactionModel confirmEnv BetChoice.YES
        (5629499646803111 / 1125899906842624)).isValid = false
        rw [hmodel]
        rfl)
  refine ⟨?_, validateDecodedBet_frac_none, hmodel, hok, hdb⟩
  rw [abs_le]
  constructor <;> norm_num [BET_LIMITS.USDT_DECIMALS]

/-- C5 amended: for whole-unit claimed amounts up to MAX_BET — the only
claimed amounts that can ultimately settle, since the rule engine rejects
fractional ones — the claim check accepts exactly when the decoded choice
equals the claimed choice and the decoded amount is within one smallest
unit (1 at 6 USDT decimals) of the claimed amount; a confirmation that
succeeds had a matching choice and a discrepancy of at most one unit; a
discrepancy larger than one unit fails the confirmation with no bet
created; and a claimed amount whose float-scaled value is not an integer
makes the `BigInt` conversion throw, failing the confirmation with no bet
created regardless of the discrepancy. -/
theorem tx_claim_check_whole_units_c5 :
    (∀ (d : DecodedBetTransaction) (c : BetChoice) (a : ℤ) (uc : BetChoice) (ua : ℕ),
        d.isValid = true → d.choice = some c → d.amount = some a → a ≠ 0 →
        (ua : ℚ) ≤ BET_LIMITS.MAX_BET →
        ∃ r, validateDecodedBet d uc (ua : ℚ) = some r ∧
          (r.isValid = true ↔
            (c = uc ∧ |a - (ua : ℤ) * 10 ^ BET_LIMITS.USDT_DECIMALS| ≤ 1))) ∧
    (∀ (req : ConfirmRequest) (env : TxEnv) (now : ℤ) (failAt : Option ℕ)
        (db : Db) (b : ℕ) (data : List Char) (c : BetChoice) (a : ℤ) (ua : ℕ),
        env.txData = some data →
        req.amount = (ua : ℚ) →
        (ua : ℚ) ≤ BET_LIMITS.MAX_BET →
        (decodePlaceBetTransaction data).choice = some c →
        (decodePlaceBetTransaction data).amount = some a →
        a ≠ 0 →
        (postConfirm req env now failAt db).1 = ConfirmResult.ok b →
        (c = req.choice ∧ |a - (ua : ℤ) * 10 ^ BET_LIMITS.USDT_DECIMALS| ≤ 1)) ∧
    (∀ (req : ConfirmRequest) (env : TxEnv) (now : ℤ) (failAt : Option ℕ)
        (db : Db) (data : List Char) (c : BetChoice) (a : ℤ) (ua : ℕ),
        env.txData = some data →
        req.amount = (ua : ℚ) →
        (ua : ℚ) ≤ BET_LIMITS.MAX_BET →
        (decodePlaceBetTransaction data).isValid = true →
        (decodePlaceBetTransaction data).choice = some c →
        (decodePlaceBetTransaction data).amount = some a →
        a ≠ 0 →
        |a - (ua : ℤ) * 10 ^ BET_LIMITS.USDT_DECIMALS| > 1 →
        (postConfirm req env now failAt db).1.isOk = false ∧
        (postConfirm req env now failAt db).2 = db) ∧
    (∀ (req : ConfirmRequest) (env : TxEnv) (now : ℤ) (failAt : Option ℕ)
        (db : Db) (data : List Char),
        env.txData = some data →
        validateDecodedBet (decodePlaceBetTransaction data) req.choice
          req.amount = none →
        (postConfirm req env now failAt db).1.isOk = false ∧
        (postConfirm req env now failAt db).2 = db) := by
  have spec := validateDecodedBet_spec
  refine ⟨fun d c a uc ua h1 h2 h3 h4 hua => ?_, ?_, ?_, ?_⟩
  · obtain ⟨r, hr, hiff, -⟩ := spec d c a uc ua h1 h2 h3 h4 hua
    exact ⟨r, hr, hiff⟩
  · intro req env now failAt db b data c a ua hdata hua hbound hc ha hne hok
    have htxv := postConfirm_ok_txValid req env now failAt db b hok
    obtain ⟨hdv, dv, hdveq, hdverr⟩ :=
      txValid_decoded env req.choice req.amount data hdata htxv
    obtain ⟨r, hreq, -, herriff⟩ :=
      spec (decodePlaceBetTransaction data) c a req.choice ua hdv hc ha hne hbound
    rw [hua] at hdveq
    rw [hdveq] at hreq
    injection hreq with h'
    subst h'
    exact herriff.1 hdverr
  · intro req env now failAt db data c a ua hdata hua hbound hdec hc ha hne hdiff
    obtain ⟨r, hreq, -, herriff⟩ :=
      spec (decodePlaceBetTransaction data) c a req.choice ua hdec hc ha hne hbound
    apply postConfirm_txInvalid
    simp only [validateBetTransactionModel, hdata]
    split_ifs with h1 h2 h3
    · rfl
    · rfl
    · rfl
    · rw [hua, hreq]
      simp only []
      have hrerr : r.errors ≠ [] := by
        intro hcontra
        have := herriff.1 hcontra
        exact absurd this.2 (not_le.2 hdiff)
      simp [hrerr]
  · intro req env now failAt db data hdata hnone
    apply postConfirm_txInvalid
    simp only [validateBetTransactionModel, hdata]
    split_ifs with h1 h2 h3
    · rfl
    · rfl
    · rfl
    · rw [hnone]
      rfl

def decodedYes5000003 : DecodedBetTransaction :=
  { isValid := true, choice := some BetChoice.YES, amount := some 5000003,
    error := none }

set_option maxRecDepth 4000 in
theorem tx_claim_check_whole_units_c5_witness :
    (∃ r, validateDecodedBet decodedYes5000003 BetChoice.YES ((5 : ℕ) : ℚ) = some r ∧
      (r.isValid = true ↔
        (BetChoice.YES = BetChoice.YES ∧
          |(5000003 : ℤ) - (5 : ℕ) * 10 ^ BET_LIMITS.USDT_DECIMALS| ≤ 1))) ∧
    ((postConfirm { confirmReq with
        txHash := "0x02" } { confirmEnv with
        txData := some (encodePlaceBet 0 5000003) } 1000000000000 none
        confirmDb0).1.isOk = false ∧
     (postConfirm { confirmReq with
        txHash := "0x02" } { confirmEnv with
        txData := some (encodePlaceBet 0 5000003) } 1000000000000 none
        confirmDb0).2 = confirmDb0) ∧
    ((postConfirm { confirmReq with
        amount := 5629499646803111 / 1125899906842624 } confirmEnv
        1000000000000 none confirmDb0).1.isOk = false ∧
     (postConfirm { confirmReq with
        amount := 5629499646803111 / 1125899906842624 } confirmEnv
        1000000000000 none confirmDb0).2 = confirmDb0) := by
  refine ⟨?_, ?_, ?_⟩
  · exact tx_claim_check_whole_units_c5.1 decodedYes5000003 BetChoice.YES 5000003
      BetChoice.YES 5 rfl rfl rfl (by decide)
      (by norm_num [BET_LIMITS.MAX_BET])
  · exact tx_claim_check_whole_units_c5.2.2.1 { confirmReq with txHash := "0x02" }
      { confirmEnv with txData := some (encodePlaceBet 0 5000003) }
      1000000000000 none confirmDb0 (encodePlaceBet 0 5000003) BetChoice.YES
      5000003 5 rfl (by norm_num [confirmReq]) (by norm_num [BET_LIMITS.MAX_BET])
      (by decide) (by decide) (by decide) (by decide) (by decide)
  · exact tx_claim_check_whole_units_c5.2.2.2
      { confirmReq with amount := 5629499646803111 / 1125899906842624 }
      confirmEnv 1000000000000 none confirmDb0 (encodePlaceBet 0 5000000) rfl
      (by rw [decodePlaceBet_yes5]; exact validateDecodedBet_frac_none)

/-- C8: `decodePlaceBetTransaction` fails whenever the selector differs
from the placeBet selector or the parameter section is not exactly 128
hex characters (two 32-byte words); and for every well-formed placeBet
payload — selector plus the encodings of a choice word in {0, 1} and an
amount within [MIN_BET_WEI, MAX_BET_WEI] — it returns exactly that
(choice, amount) pair, mapping word 0 to YES and word 1 to NO. -/
theorem decode_rejects_and_roundtrip_c8 :
    (∀ data : List Char,
        data.take 10 ≠ PLACE_BET_SELECTOR ∨ (data.drop 10).length ≠ 128 →
        (decodePlaceBetTransaction data).isValid = false) ∧
    (∀ c a : ℕ, (c = 0 ∨ c = 1) →
        BET_LIMITS.MIN_BET_WEI ≤ (a : ℤ) → (a : ℤ) ≤ BET_LIMITS.MAX_BET_WEI →
        decodePlaceBetTransaction (encodePlaceBet c a) =
          { isValid := true,
            choice := some (if c = 0 then BetChoice.YES else BetChoice.NO),
            amount := some (a : ℤ), error := none }) := by
  constructor
  · intro data h
    by_cases hsel : data.take 10 = PLACE_BET_SELECTOR
    · rcases h with h | h
      · exact absurd hsel h
      · simp only [decodePlaceBetTransaction]
        rw [if_neg (by simp [hsel]), if_pos h]
        rfl
    · simp only [decodePlaceBetTransaction]
      rw [if_pos hsel]
      rfl
  · exact fun c a hcv hmin hmax => decode_wellformed c a hcv hmin hmax

set_option maxRecDepth 4000 in
theorem decode_rejects_and_roundtrip_c8_witness :
    (decodePlaceBetTransaction ['0', 'x']).isValid = false ∧
    decodePlaceBetTransaction (encodePlaceBet 1 5000000000) =
      { isValid := true, choice := some BetChoice.NO,
        amount := some 5000000000, error := none } := by
  constructor
  · exact decode_rejects_and_roundtrip_c8.1 ['0', 'x'] (Or.inl (by decide))
  · have h := decode_rejects_and_roundtrip_c8.2 1 5000000000 (Or.inr rfl)
      (by norm_num [BET_LIMITS.MIN_BET_WEI]) (by norm_num [BET_LIMITS.MAX_BET_WEI])
    simpa using h

/-- C10: beyond selector and length, the decoder rejects any payload whose
choice word is neither 0 nor 1 and any payload whose amount lies outside
[MIN_BET_WEI, MAX_BET_WEI]; and whenever the decode of the transaction
payload is invalid, the confirm route returns an error and leaves the
store untouched — an out-of-limits on-chain bet can never reach
settlement, independently of the rule engine's amount-bounds check. -/
theorem decoder_guards_settlement_c10 :
    (∀ (data : List Char) (c : ℕ),
        data.take 10 = PLACE_BET_SELECTOR → (data.drop 10).length = 128 →
        parseHexNat ((data.drop 10).take 64) = some c → c ≠ 0 → c ≠ 1 →
        (decodePlaceBetTransaction data).isValid = false) ∧
    (∀ (data : List Char) (c a : ℕ),
        data.take 10 = PLACE_BET_SELECTOR → (data.drop 10).length = 128 →
        parseHexNat ((data.drop 10).take 64) = some c → (c = 0 ∨ c = 1) →
        parseHexNat ((data.drop 10).drop 64) = some a →
        ((a : ℤ) < BET_LIMITS.MIN_BET_WEI ∨ (a : ℤ) > BET_LIMITS.MAX_BET_WEI) →
        (decodePlaceBetTransaction data).isValid = false) ∧
    (∀ (req : ConfirmRequest) (env : TxEnv) (now : ℤ) (failAt : Option ℕ)
        (db : Db) (data : List Char),
        env.txData = some data →
        (decodePlaceBetTransaction data).isValid = false →
        (postConfirm req env now failAt db).1.isOk = false ∧
        (postConfirm req env now failAt db).2 = db) := by
  refine ⟨decode_invalid_bad_choice, decode_invalid_bad_amount, ?_⟩
  intro req env now failAt db data hdata hdec
  apply postConfirm_txInvalid
  simp only [validateBetTransactionModel, hdata]
  split_ifs
  all_goals first | rfl | exact absurd hdec (by assumption)

set_option maxRecDepth 4000 in
theorem decoder_guards_settlement_c10_witness :
    (decodePlaceBetTransaction (encodePlaceBet 2 5000000)).isValid = false ∧
    (decodePlaceBetTransaction (encodePlaceBet 0 1000)).isValid = false ∧
    ((postConfirm confirmReq { confirmEnv with
        txData := some (encodePlaceBet 0 1000) } 1000000000000 none
        confirmDb0).1.isOk = false ∧
     (postConfirm confirmReq { confirmEnv with
        txData := some (encodePlaceBet 0 1000) } 1000000000000 none
        confirmDb0).2 = confirmDb0) := by
  refine ⟨?_, ?_, ?_⟩
  · exact decoder_guards_settlement_c10.1 (encodePlaceBet 2 5000000) 2
      (by decide) (by decide) (by decide) (by decide) (by decide)
  · exact decoder_guards_settlement_c10.2.1 (encodePlaceBet 0 1000) 0 1000
      (by decide) (by decide) (by decide) (Or.inl rfl) (by decide)
      (Or.inl (by norm_num [BET_LIMITS.MIN_BET_WEI]))
  · exact decoder_guards_settlement_c10.2.2 confirmReq
      { confirmEnv with txData := some (encodePlaceBet 0 1000) }
      1000000000000 none confirmDb0 (encodePlaceBet 0 1000) rfl (by decide)

/-- C3 counterexample: the claim says POOL_CAP_EXCEEDED fires exactly when
the wallet's stake plus the new amount exceeds POOL_CAP_PERCENT% of the
POST-bet total pool (yes + no + amount).  At wallet stake 0, amount 11,
pools (100, 0): the post-bet bound is 11.1 so the claim predicts no
violation, yet the code — whose denominator is the PRE-bet pool, bound 10
— reports one. -/
theorem poolCap_claim_counterexample :
    ¬ ((validatePoolCap 0 11 100 0 ≠ []) ↔
       ((0 : ℚ) + 11 >
         ((100 : ℚ) + 0 + 11) * ANTI_MANIPULATION.POOL_CAP_PERCENT / 100)) := by
  intro h
  have hP : validatePoolCap 0 11 100 0 ≠ [] := by
    norm_num [validatePoolCap, ANTI_MANIPULATION.POOL_CAP_PERCENT]
  have hQ := h.1 hP
  norm_num [ANTI_MANIPULATION.POOL_CAP_PERCENT] at hQ

theorem ite_singleton_ne_nil {α : Type} (c : Prop) [Decidable c] (e : α) :
    (if c then [e] else []) ≠ [] ↔ c := by
  split <;> simp_all

/-- C3 amended: `validatePoolCap` reports POOL_CAP_EXCEEDED exactly when
the wallet's cumulative stake plus the new amount exceeds
POOL_CAP_PERCENT percent of the PRE-bet total pool `yesPool + noPool`
(the new amount is not part of the denominator); when the pre-bet pool is
not positive the bound is the bootstrap ceiling `MAX_BET * 10`. -/
theorem validatePoolCap_pre_bet_denominator (w a y n : ℚ) :
    validatePoolCap w a y n ≠ [] ↔
      w + a > (if y + n > 0
               then (y + n) * ANTI_MANIPULATION.POOL_CAP_PERCENT / 100
               else BET_LIMITS.MAX_BET * 10) := by
  simp only [validatePoolCap]
  exact ite_singleton_ne_nil _ _

def gatedInput : BetComprehensiveInput :=
  { walletAddress := confirmWallet, choice := some BetChoice.YES, amount := 1,
    lastBetTimestamp := none, currentBetCount := 10, walletTotalBets := 0,
    recentBetTimestamps := [], totalYesPool := 100, totalNoPool := 0,
    marketStatus := "ACTIVE", marketEndTime := 2000000000, isFlagged := false }

/-- C4 counterexample: with amount 1 (below MIN_BET) and a bet count of 10
(at the cap), `validateBetComprehensive` returns only the
BET_MIN_EXCEEDED entry: the violated bet-count check is not represented,
because the cooldown/count/pool-cap/velocity validators only run when the
first-stage validators produced no error — refuting the claim that every
failing check always appears in the list. -/
theorem comprehensive_drops_bet_count_violation :
    gatedInput.currentBetCount ≥ ANTI_MANIPULATION.MAX_BETS_PER_WALLET ∧
    validateBetCount gatedInput.currentBetCount ≠ [] ∧
    (validateBetComprehensive gatedInput 1000000000000).errors =
      [{ field := "amount", code := "BET_MIN_EXCEEDED" }] ∧
    ¬ ∃ e ∈ (validateBetComprehensive gatedInput 1000000000000).errors,
        e.code = "BET_COUNT_EXCEEDED" := by
  refine ⟨by decide, by decide, ?_, ?_⟩
  · norm_num +decide [validateBetComprehensive, comprehensiveStageOne, gatedInput,
      validateWalletAddress, isValidAddress, confirmWallet, validateBetChoice,
      validateBetAmount, validateMarketActive, validateWalletNotFlagged,
      validateCooldown, validateBetCount, validatePoolCap, validateBetVelocity,
      BET_LIMITS.MIN_BET, BET_LIMITS.MAX_BET,
      ANTI_MANIPULATION.MAX_BETS_PER_WALLET, ANTI_MANIPULATION.POOL_CAP_PERCENT,
      ANTI_MANIPULATION.MAX_BETS_IN_1_HOUR, ANTI_MANIPULATION.COOLDOWN_SECONDS]
  · intro ⟨e, he, hcode⟩
    have herr : (validateBetComprehensive gatedInput 1000000000000).errors =
        [{ field := "amount", code := "BET_MIN_EXCEEDED" }] := by
      norm_num +decide [validateBetComprehensive, comprehensiveStageOne, gatedInput,
        validateWalletAddress, isValidAddress, confirmWallet, validateBetChoice,
        validateBetAmount, validateMarketActive, validateWalletNotFlagged,
        validateCooldown, validateBetCount, validatePoolCap, validateBetVelocity,
        BET_LIMITS.MIN_BET, BET_LIMITS.MAX_BET,
        ANTI_MANIPULATION.MAX_BETS_PER_WALLET, ANTI_MANIPULATION.POOL_CAP_PERCENT,
        ANTI_MANIPULATION.MAX_BETS_IN_1_HOUR, ANTI_MANIPULATION.COOLDOWN_SECONDS]
    rw [herr] at he
    simp at he
    rw [he] at hcode
    simp at hcode

theorem validateCooldown_cases (l : Option ℤ) (t : ℤ) :
    validateCooldown l t = [] ∨
    validateCooldown l t = [{ field := "cooldown", code := "COOLDOWN_NOT_MET" }] := by
  rcases l with - | v
  · simp [validateCooldown]
  · simp only [validateCooldown]
    split_ifs <;> simp

theorem validateBetCount_cases (c : ℕ) :
    validateBetCount c = [] ∨
    validateBetCount c = [{ field := "betCount", code := "BET_COUNT_EXCEEDED" }] := by
  simp only [validateBetCount]
  split_ifs <;> simp

theorem validatePoolCap_cases (w a y n : ℚ) :
    validatePoolCap w a y n = [] ∨
    validatePoolCap w a y n = [{ field := "poolCap", code := "POOL_CAP_EXCEEDED" }] := by
  simp only [validatePoolCap]
  split_ifs <;> simp

theorem validateBetVelocity_cases (ts : List ℤ) (t : ℤ) :
    validateBetVelocity ts t = [] ∨
    validateBetVelocity ts t = [{ field := "velocity", code := "VELOCITY_EXCEEDED" }] := by
  simp only [validateBetVelocity]
  split_ifs <;> simp

/-- C4 amended: `validateBetComprehensive` collects failures in two
stages.  When any first-stage check (wallet address, choice, amount
bounds, market liveness, wallet flag) fails, the result is exactly the
first-stage list — all first-stage failures together, the timing-based
checks unevaluated.  When the first stage is clean, the result represents
each of cooldown, bet-count cap, pool-concentration cap and velocity
simultaneously: the reason code of each appears iff that check fails. -/
theorem comprehensive_two_stage (i : BetComprehensiveInput) (now : ℤ) :
    (comprehensiveStageOne i now ≠ [] →
      (validateBetComprehensive i now).errors = comprehensiveStageOne i now) ∧
    (comprehensiveStageOne i now = [] →
      ((∃ e ∈ (validateBetComprehensive i now).errors,
          e.code = "COOLDOWN_NOT_MET") ↔
        validateCooldown i.lastBetTimestamp now ≠ []) ∧
      ((∃ e ∈ (validateBetComprehensive i now).errors,
          e.code = "BET_COUNT_EXCEEDED") ↔
        validateBetCount i.currentBetCount ≠ []) ∧
      ((∃ e ∈ (validateBetComprehensive i now).errors,
          e.code = "POOL_CAP_EXCEEDED") ↔
        validatePoolCap i.walletTotalBets i.amount i.totalYesPool i.totalNoPool ≠ []) ∧
      ((∃ e ∈ (validateBetComprehensive i now).errors,
          e.code = "VELOCITY_EXCEEDED") ↔
        validateBetVelocity i.recentBetTimestamps now ≠ [])) := by
  constructor
  · intro h
    simp only [validateBetComprehensive]
    rw [if_neg h]
  · intro h
    simp only [validateBetComprehensive]
    rw [if_pos h, h]
    rcases validateCooldown_cases i.lastBetTimestamp now with hc | hc <;>
      rcases validateBetCount_cases i.currentBetCount with hn | hn <;>
      rcases validatePoolCap_cases i.walletTotalBets i.amount i.totalYesPool
        i.totalNoPool with hp | hp <;>
      rcases validateBetVelocity_cases i.recentBetTimestamps now with hv | hv <;>
      simp [hc, hn, hp, hv]

-- ============================================================================
-- GET /api/markets/live-stats (SSE change-detection loop)
-- ============================================================================

/-- Per-connection loop state of the live-stats stream: `prevYesPool` and
`prevNoPool` are the mutable `let` bindings updated on every detected
change; the market row captured at connection time (`market` in the
source) never changes, so status comparisons run against the INITIAL
status for the life of the stream. -/
structure StreamState where
  prevYesPool : ℤ
  prevNoPool : ℤ
  initialStatus : String
deriving DecidableEq, Repr

/-- Frames of the SSE stream with the payload fields the source sends. -/
inductive SSEFrame where
  | poolUpdate (yesPool noPool totalPool : ℤ) (yesPercent noPercent : ℚ)
      (totalBets : ℕ)
  | marketUpdate (status : String) (winner : Option String) (timeRemaining : ℤ)
  | heartbeat
  | errorFrame (code : String)
deriving DecidableEq, Repr

def SSEFrame.isPoolUpdate : SSEFrame → Bool
  | .poolUpdate _ _ _ _ _ _ => true
  | _ => false

def SSEFrame.isMarketUpdate : SSEFrame → Bool
  | .marketUpdate _ _ _ => true
  | _ => false

/-- Mirror of `calculatePoolPercentages`: BigInt basis-point division (the
pools are non-negative, so truncating and flooring division agree),
then a float division by 100 that is exact on the model's rationals. -/
def calculatePoolPercentages (yesPool noPool : ℤ) : ℚ × ℚ :=
  let total := yesPool + noPool
  if total = 0 then (0, 0)
  else (((yesPool * 10000 / total : ℤ) : ℚ) / 100,
        ((noPool * 10000 / total : ℤ) : ℚ) / 100)

/-- Initial stream state captured by the route after STEP 2's market
fetch: `prevYesPool`/`prevNoPool` start from that snapshot, and the same
snapshot is what every later `currentMarket.status !== market.status`
comparison reads. -/
def streamInit (market : MarketRow) : StreamState :=
  { prevYesPool := market.yesPool, prevNoPool := market.noPool,
    initialStatus := market.status }

/-- One detection tick of the live-stats poll interval: emitted frames,
next state, and whether the stream closed.  Mirrors the source: a missing
market emits an ERROR frame and closes; a change in either pool relative
to the previous tick OR a status differing from the INITIAL snapshot
emits a POOL_UPDATE (updating only the pool baselines), plus a
MARKET_UPDATE exactly when the status differs from the INITIAL snapshot;
otherwise a HEARTBEAT. -/
def liveStatsTick (st : StreamState) (current : Option MarketRow)
    (totalBets : ℕ) (now : ℤ) : List SSEFrame × StreamState × Bool :=
  match current with
  | none => ([SSEFrame.errorFrame "MARKET_DELETED"], st, true)
  | some m =>
    if m.yesPool ≠ st.prevYesPool ∨ m.noPool ≠ st.prevNoPool ∨
        m.status ≠ st.initialStatus then
      let st' := { st with prevYesPool := m.yesPool, prevNoPool := m.noPool }
      let pcts := calculatePoolPercentages m.yesPool m.noPool
      (SSEFrame.poolUpdate m.yesPool m.noPool (m.yesPool + m.noPool)
          pcts.1 pcts.2 totalBets ::
        (if m.status ≠ st.initialStatus then
          [SSEFrame.marketUpdate m.status m.winner
            (max 0 ((m.endDate - now) / 1000))]
         else []),
       st', false)
    else
      ([SSEFrame.heartbeat], st, false)

def closedMarket : MarketRow :=
  { marketId := "m1", status := "CLOSED", winner := some "YES",
    yesPool := 0, noPool := 0, endDate := 0 }

/-- C7 counterexample: once the status has changed away from the initial
snapshot, every later tick re-emits POOL_UPDATE and MARKET_UPDATE even
though pools and status are unchanged relative to the previous tick's
observation — the claim demands exactly one HEARTBEAT there. -/
theorem liveStats_reemits_when_unchanged :
    (liveStatsTick (streamInit { closedMarket with status := "ACTIVE" })
        (some closedMarket) 0 0).2.1.prevYesPool = closedMarket.yesPool ∧
    (liveStatsTick (streamInit { closedMarket with status := "ACTIVE" })
        (some closedMarket) 0 0).2.1.prevNoPool = closedMarket.noPool ∧
    (liveStatsTick
        (liveStatsTick (streamInit { closedMarket with status := "ACTIVE" })
          (some closedMarket) 0 0).2.1
        (some closedMarket) 0 0).1 ≠ [SSEFrame.heartbeat] ∧
    (liveStatsTick
        (liveStatsTick (streamInit { closedMarket with status := "ACTIVE" })
          (some closedMarket) 0 0).2.1
        (some closedMarket) 0 0).1 =
      [SSEFrame.poolUpdate 0 0 0 0 0 0,
       SSEFrame.marketUpdate "CLOSED" (some "YES") 0] := by
  refine ⟨by decide, by decide, by decide, by decide⟩

/-- C7 amended: frame characterization of one tick.  A single HEARTBEAT is
emitted iff both pools equal the previous tick's values AND the status
equals the INITIAL snapshot's status (not the previous tick's); a
MARKET_UPDATE is emitted iff the status differs from the INITIAL status;
a POOL_UPDATE is emitted iff a pool changed or the status differs from
the INITIAL status; the status baseline is never advanced. -/
theorem liveStatsTick_frames (st : StreamState) (m : MarketRow)
    (totalBets : ℕ) (now : ℤ) :
    ((liveStatsTick st (some m) totalBets now).1 = [SSEFrame.heartbeat] ↔
      (m.yesPool = st.prevYesPool ∧ m.noPool = st.prevNoPool ∧
        m.status = st.initialStatus)) ∧
    ((∃ f ∈ (liveStatsTick st (some m) totalBets now).1,
        f.isMarketUpdate = true) ↔ m.status ≠ st.initialStatus) ∧
    ((∃ f ∈ (liveStatsTick st (some m) totalBets now).1,
        f.isPoolUpdate = true) ↔
      (m.yesPool ≠ st.prevYesPool ∨ m.noPool ≠ st.prevNoPool ∨
        m.status ≠ st.initialStatus)) ∧
    (liveStatsTick st (some m) totalBets now).2.1.initialStatus =
      st.initialStatus := by
  simp only [liveStatsTick]
  by_cases hy : m.yesPool = st.prevYesPool <;>
    by_cases hn : m.noPool = st.prevNoPool <;>
    by_cases hs : m.status = st.initialStatus <;>
    simp [hy, hn, hs, SSEFrame.isPoolUpdate, SSEFrame.isMarketUpdate]

-- ============================================================================
-- Live-stats connection registry and per-connection poll loops
-- ============================================================================

/-- State of the live-stats endpoint's process: the `activeConnections`
registry entries and the poll loops (`setInterval` handles) currently
running, both keyed by connection id with the market they serve. -/
structure HubState where
  conns : List (ℕ × String)
  loops : List (ℕ × String)
deriving DecidableEq, Repr

/-- Mirror of an accepted `GET /api/markets/live-stats` connection:
STEP 3 registers the connection and STEP 4's stream `start` creates a NEW
`setInterval` poll loop for this connection — one loop per connection,
never shared (the source's own TODO: "If same market is requested
multiple times, share the same polling interval instead of polling N
times"). -/
def sseConnect (st : HubState) (connId : ℕ) (marketId : String) : HubState :=
  { conns := st.conns ++ [(connId, marketId)],
    loops := st.loops ++ [(connId, marketId)] }

/-- Mirror of the `abort` handler: clears this connection's interval and
unregisters it. -/
def sseDisconnect (st : HubState) (connId : ℕ) : HubState :=
  { conns := st.conns.filter (fun c => c.1 ≠ connId),
    loops := st.loops.filter (fun c => c.1 ≠ connId) }

inductive HubOp where
  | connect (connId : ℕ) (marketId : String)
  | disconnect (connId : ℕ)
deriving DecidableEq, Repr

def applyHubOp (st : HubState) : HubOp → HubState
  | .connect i m => sseConnect st i m
  | .disconnect i => sseDisconnect st i

def runHub (ops : List HubOp) : HubState :=
  ops.foldl applyHubOp { conns := [], loops := [] }

def subscriberCount (st : HubState) (marketId : String) : ℕ :=
  (st.conns.filter (fun c => c.2 = marketId)).length

def pollLoopCount (st : HubState) (marketId : String) : ℕ :=
  (st.loops.filter (fun c => c.2 = marketId)).length

/-- C9 counterexample: two concurrent subscribers to the same market run
two poll loops, not the single shared change-detection loop the claim
asserts. -/
theorem two_subscribers_two_loops :
    subscriberCount (runHub [HubOp.connect 1 "m1", HubOp.connect 2 "m1"]) "m1" = 2 ∧
    pollLoopCount (runHub [HubOp.connect 1 "m1", HubOp.connect 2 "m1"]) "m1" = 2 ∧
    pollLoopCount (runHub [HubOp.connect 1 "m1", HubOp.connect 2 "m1"]) "m1" ≠ 1 := by
  refine ⟨by decide, by decide, by decide⟩

theorem runHub_loops_eq_conns (ops : List HubOp) : (runHub ops).loops = (runHub ops).conns := by
  suffices h : ∀ st : HubState, st.loops = st.conns →
      (ops.foldl applyHubOp st).loops = (ops.foldl applyHubOp st).conns by
    exact h { conns := [], loops := [] } rfl
  induction ops with
  | nil => intro st h; exact h
  | cons op rest ih =>
    intro st h
    rcases op with ⟨i, m⟩ | i
    · exact ih _ (by simp [applyHubOp, sseConnect, h])
    · exact ih _ (by simp [applyHubOp, sseDisconnect, h])

/-- C9 amended: after any sequence of connects and disconnects the number
of poll loops serving a market equals the number of its open connections
— store-polling load is proportional to connections, not to distinct
markets. -/
theorem pollLoops_proportional_to_connections (ops : List HubOp) (marketId : String) :
    pollLoopCount (runHub ops) marketId = subscriberCount (runHub ops) marketId := by
  unfold pollLoopCount subscriberCount
  rw [runHub_loops_eq_conns]

def gatedInputOk : BetComprehensiveInput := { gatedInput with amount := 5 }

theorem comprehensive_two_stage_witness :
    (validateBetComprehensive gatedInput 1000000000000).errors =
      comprehensiveStageOne gatedInput 1000000000000 ∧
    comprehensiveStageOne gatedInputOk 1000000000000 = [] ∧
    ((∃ e ∈ (validateBetComprehensive gatedInputOk 1000000000000).errors,
        e.code = "BET_COUNT_EXCEEDED") ↔
      validateBetCount gatedInputOk.currentBetCount ≠ []) := by
  have hne : comprehensiveStageOne gatedInput 1000000000000 ≠ [] := by
    norm_num +decide [comprehensiveStageOne, gatedInput, validateWalletAddress,
      isValidAddress, confirmWallet, validateBetChoice, validateBetAmount,
      validateMarketActive, validateWalletNotFlagged, BET_LIMITS.MIN_BET,
      BET_LIMITS.MAX_BET]
  have hok : comprehensiveStageOne gatedInputOk 1000000000000 = [] := by
    norm_num +decide [comprehensiveStageOne, gatedInputOk, gatedInput,
      validateWalletAddress, isValidAddress, confirmWallet, validateBetChoice,
      validateBetAmount, validateMarketActive, validateWalletNotFlagged,
      BET_LIMITS.MIN_BET, BET_LIMITS.MAX_BET]
  exact ⟨(comprehensive_two_stage gatedInput 1000000000000).1 hne, hok,
    ((comprehensive_two_stage gatedInputOk 1000000000000).2 hok).2.1⟩
